import Mathlib

/-
Verification of the yew-mdc components against their specification.

The repository has two Yew components:
  * src/components/drawer/content.rs : the drawer content panel,
  * src/components/select.rs         : the material-design select field.

We give a shallow embedding: the rendered markup becomes an inductive
tree of elements, the lifecycle hooks become pure functions from state
to state plus a list of controller actions, and the change-event
handler becomes a pure function from the event detail (a JSON value)
to an outcome recording propagation stopping, panicking, and the
callback invocations.
-/

namespace YewMdc

/-- A rendered markup tree. An element carries its tag, its non-class
attributes as key/value pairs, its class list, and its children.
Fragments produced by splicing are flattened into child lists. -/
inductive Html where
  | text (s : String)
  | element (tag : String) (attrs : List (String × String))
      (classes : List String) (children : List Html)
deriving Repr

/-- Tag of an element; text nodes answer the empty string. -/
def Html.tagOf : Html → String
  | .text _ => ""
  | .element t _ _ _ => t

/-- Non-class attributes of an element. -/
def Html.attrsOf : Html → List (String × String)
  | .text _ => []
  | .element _ a _ _ => a

/-- Class list of an element. -/
def Html.classesOf : Html → List String
  | .text _ => []
  | .element _ _ c _ => c

/-- Children of an element. -/
def Html.childrenOf : Html → List Html
  | .text _ => []
  | .element _ _ _ ch => ch

/-- Value of a named attribute, if present. -/
def Html.attr (h : Html) (name : String) : Option String :=
  (h.attrsOf.lookup name)

/-- Child at a given index; text node placeholder when out of range. -/
def Html.nthChild (h : Html) (i : Nat) : Html :=
  (h.childrenOf.get? i).getD (.text "")

mutual
/-- All elements of the tree whose class list carries the
floating-label marker class. -/
def Html.floatingLabels : Html → List Html
  | .text _ => []
  | .element t a c ch =>
    (if "mdc-floating-label" ∈ c then [Html.element t a c ch] else [])
      ++ Html.floatingLabelsList ch
/-- floatingLabels over a list of trees. -/
def Html.floatingLabelsList : List Html → List Html
  | [] => []
  | h :: rest => Html.floatingLabels h ++ Html.floatingLabelsList rest
end

mutual
/-- Number of elements of the tree whose id attribute equals the
given string. -/
def Html.idCount (s : String) : Html → Nat
  | .text _ => 0
  | .element _ a _ ch =>
    (if ("id", s) ∈ a then 1 else 0) + Html.idCountList s ch
/-- idCount over a list of trees. -/
def Html.idCountList (s : String) : List Html → Nat
  | [] => 0
  | h :: rest => Html.idCount s h + Html.idCountList s rest
end

/-! ### The drawer content panel (src/components/drawer/content.rs) -/

namespace Content

/-- Properties of the content panel: an identifier defaulting to the
empty string, and the child markup. -/
structure Props where
  id : String := ""
  children : List Html
deriving Repr

/-- The changed hook of the content panel: always request a re-render. -/
def changed (_p : Props) : Bool := true

/-- The update hook of the content panel: never request a re-render. -/
def update (_msg : Unit) : Bool := false

/-- The view of the content panel: one div with the fixed drawer
content class, the given id, and the children spliced unchanged. -/
def view (p : Props) : Html :=
  Html.element "div" [("id", p.id)] ["mdc-drawer__content"] p.children

end Content

/-! ### The select field (src/components/select.rs) -/

/-- Properties of the select field, with the prop_or_default values of
the source. The onchange callback is not a field here: callback
invocations are modelled as outputs of the update hook. -/
structure SelectProps where
  children : List Html
  select_width_class : String
  id : String
  label : Option String := none
  fixed_position : Bool := false
  absolute_position : Option (Int × Int) := none
  selected_value : Option String := none
deriving Repr

/-- The payload decoded from the native change event detail. -/
structure SelectChangeEventData where
  value : String
  index : Int
deriving Repr, DecidableEq

/-- The internal message of the select component. -/
inductive SelectMsg where
  | Changed (data : SelectChangeEventData)
deriving Repr, DecidableEq

namespace Select

/-- The view of the select field, translated node by node from the
html! block of Select::view. The classes! conditionals become list
appends: the Option produced by as_some contributes nothing when it
is None. -/
def view (p : SelectProps) : Html :=
  let classes : List String :=
    ["mdc-select", "mdc-select--filled", p.select_width_class]
      ++ (if p.label.isNone then ["mdc-select--no-label"] else [])
  let menu_classes : List String :=
    ["mdc-menu", "mdc-menu-surface", "mdc-select__menu", p.select_width_class]
      ++ [if p.fixed_position then "mdc-menu-surface--fixed"
          else "mdc-menu-surface--fullwidth"]
  let label_id := p.id ++ "-label"
  let selected_text_id := p.id ++ "-selected-text"
  let label : List Html :=
    match p.label with
    | none => []
    | some t =>
      [Html.element "span" [("id", label_id)] ["mdc-floating-label"]
        [Html.text t]]
  Html.element "div" [("id", p.id)] classes
    [ Html.element "div"
        [ ("role", "button"),
          ("aria-haspopup", "listbox"),
          ("aria-expanded", "false"),
          ("aria-labelledby", label_id ++ " " ++ selected_text_id) ]
        ["mdc-select__anchor"]
        ([ Html.element "span" [] ["mdc-select__ripple"] [] ]
          ++ label
          ++ [ Html.element "span" [] ["mdc-select__selected-text-container"]
                 [Html.element "span" [("id", selected_text_id)]
                   ["mdc-select__selected-text"] []],
               Html.element "span" [] ["mdc-select__dropdown-icon"]
                 [Html.element "svg"
                   [("viewBox", "7 10 10 5"), ("focusable", "false")]
                   ["mdc-select__dropdown-icon-graphic"]
                   [ Html.element "polygon"
                       [("stroke", "none"), ("fill-rule", "evenodd"),
                        ("points", "7 10 12 15 17 10")]
                       ["mdc-select__dropdown-icon-inactive"] [],
                     Html.element "polygon"
                       [("stroke", "none"), ("fill-rule", "evenodd"),
                        ("points", "7 15 12 10 17 15")]
                       ["mdc-select__dropdown-icon-active"] [] ]],
               Html.element "span" [] ["mdc-line-ripple"] [] ]),
      Html.element "div" [] menu_classes
        [ Html.element "ul"
            [ ("role", "listbox"),
              ("aria-label", p.label.getD "" ++ " listbox") ]
            ["mdc-deprecated-list"]
            p.children ] ]

/-- The changed hook: property changes always request a re-render. -/
def changed (_p : SelectProps) : Bool := true

/-- The update hook. The first component of the result lists the
payloads emitted to the host onchange callback; the second is the
re-render request returned to the framework. -/
def update : SelectMsg → List SelectChangeEventData × Bool
  | .Changed data => ([data], false)

end Select

/-! ### The change event handler

The closure installed in Select::create receives the custom event,
stops its propagation, decodes the detail payload with serde into
SelectChangeEventData (panicking on failure), and emits the decoded
payload through the link callback, which wraps it in SelectMsg.Changed
and hands it to the update hook. We model the detail payload as a JSON
value and the whole relay as a pure function to an outcome record. -/

/-- A JSON value, the shape of the custom event detail. Numbers are
modelled as integers, which covers every payload the i64 index field
can accept. -/
inductive Json where
  | null
  | bool (b : Bool)
  | num (n : Int)
  | str (s : String)
  | arr (elems : List Json)
  | obj (fields : List (String × Json))
deriving Repr

/-- Field lookup in a JSON object; none on non-objects. -/
def Json.getField : Json → String → Option Json
  | .obj fields, name => fields.lookup name
  | _, _ => none

/-- The serde decoding of the detail into SelectChangeEventData: the
value must be an object whose value field is a string and whose index
field is an integer number. -/
def decodeSelectChangeEventData (j : Json) : Option SelectChangeEventData :=
  match j.getField "value", j.getField "index" with
  | some (Json.str v), some (Json.num n) => some ⟨v, n⟩
  | _, _ => none

/-- The observable outcome of delivering one native change event. -/
structure RelayOutcome where
  stoppedPropagation : Bool
  panicked : Bool
  callbackCalls : List SelectChangeEventData
deriving Repr, DecidableEq

namespace Select

/-- Delivery of one native change event with the given detail:
propagation is stopped first; then the detail is decoded, a failure
panicking before any callback runs; a decoded payload travels through
the link callback into the update hook, whose emissions reach the
host onchange callback. -/
def relayChangeEvent (detail : Json) : RelayOutcome :=
  match decodeSelectChangeEventData detail with
  | some d => ⟨true, false, (Select.update (SelectMsg.Changed d)).1⟩
  | none => ⟨true, true, []⟩

end Select

/-! ### The controller lifecycle

The MDCSelect controller calls made by the component are recorded as
an action trace; the component state keeps the inner slot of the Rust
struct (None before the controller exists, Some after). -/

/-- One imperative call on the MDCSelect controller collaborator. -/
inductive ControllerAction where
  | newController
  | setValue (v : String)
  | listen (event : String)
  | unlisten (event : String)
  | destroyController
deriving Repr, DecidableEq

/-- The mutable state of the select component: the inner controller
slot. -/
structure SelectState where
  inner : Option Unit
deriving Repr, DecidableEq

/-- A lifecycle event delivered by the framework to the component. The
rendered step carries the first_render flag and whether the node_ref
cast to an element succeeds. -/
inductive LifecycleStep where
  | rendered (firstRender : Bool) (elemExists : Bool)
  | update (msg : SelectMsg)
  | destroy
deriving Repr

namespace Select

/-- The constructor. It builds the closure and the empty node_ref and
performs no controller call: the action list is empty and the inner
slot starts as None. -/
def create : SelectState × List ControllerAction :=
  (⟨none⟩, [])

/-- The rendered hook. On the first render, when the node_ref resolves
to an element, the controller is constructed, a supplied pre-selected
value is applied, the change listener is registered, and the inner
slot is filled; otherwise nothing happens. -/
def rendered (p : SelectProps) (s : SelectState)
    (firstRender : Bool) (elemExists : Bool) :
    SelectState × List ControllerAction :=
  if firstRender then
    if elemExists then
      (⟨some ()⟩,
        ControllerAction.newController ::
          ((match p.selected_value with
            | some v => [ControllerAction.setValue v]
            | none => [])
            ++ [ControllerAction.listen "MDCSelect:change"]))
    else (s, [])
  else (s, [])

/-- The destroy hook: when a controller exists, unlisten then destroy
it; otherwise do nothing. -/
def destroy (s : SelectState) : SelectState × List ControllerAction :=
  match s.inner with
  | some _ => (s, [ControllerAction.unlisten "MDCSelect:change",
                   ControllerAction.destroyController])
  | none => (s, [])

/-- Dispatch of one lifecycle step to the matching hook. The update
hook touches no controller. -/
def stepActions (p : SelectProps) (s : SelectState) :
    LifecycleStep → SelectState × List ControllerAction
  | .rendered fr ex => Select.rendered p s fr ex
  | .update _ => (s, [])
  | .destroy => Select.destroy s

/-- Run a sequence of lifecycle steps from a state, recording for each
step the controller actions it performs. -/
def run (p : SelectProps) (s : SelectState) :
    List LifecycleStep → List (LifecycleStep × List ControllerAction)
  | [] => []
  | st :: rest =>
    let out := Select.stepActions p s st
    (st, out.2) :: Select.run p out.1 rest

/-- The trace of a full mount: the constructor runs first, then the
framework delivers the steps. -/
def runTrace (p : SelectProps) (steps : List LifecycleStep) :
    List (LifecycleStep × List ControllerAction) :=
  Select.run p Select.create.1 steps

end Select

/-- Number of rendered steps carrying the first_render flag. In a
lifecycle the framework delivers, the flag is true on the first
rendered call only, so this count is at most one. -/
def renderedTrueCount : List LifecycleStep → Nat
  | [] => 0
  | .rendered true _ :: rest => 1 + renderedTrueCount rest
  | _ :: rest => renderedTrueCount rest

/-- All controller actions of a trace, in order. -/
def traceActions
    (tr : List (LifecycleStep × List ControllerAction)) :
    List ControllerAction :=
  (tr.map Prod.snd).flatten

/-- Number of controller constructions in an action list. -/
def newCount (as : List ControllerAction) : Nat :=
  as.countP (fun a => a == ControllerAction.newController)

/-! ## Theorems for the claims -/

/-- C1: for every native change event whose detail decodes as a
value/index record, delivering the event stops propagation on the
original event, does not panic, and invokes the host onchange callback
exactly once, with exactly the decoded payload. -/
theorem select_change_event_relayed_once (detail : Json)
    (d : SelectChangeEventData)
    (h : decodeSelectChangeEventData detail = some d) :
    Select.relayChangeEvent detail =
      ⟨true, false, [d]⟩ := by
  simp [Select.relayChangeEvent, h, Select.update]

/-- Witness for C1 at the concrete detail with value b and index 1. -/
theorem select_change_event_relayed_once_witness :
    Select.relayChangeEvent
        (Json.obj [("value", Json.str "b"), ("index", Json.num 1)]) =
      ⟨true, false, [⟨"b", 1⟩]⟩ :=
  select_change_event_relayed_once _ ⟨"b", 1⟩ rfl

/-- C2: for every native change event whose detail fails to decode,
delivery panics and the host callback is never invoked. -/
theorem select_malformed_detail_panics (detail : Json)
    (h : decodeSelectChangeEventData detail = none) :
    (Select.relayChangeEvent detail).panicked = true ∧
    (Select.relayChangeEvent detail).callbackCalls = [] := by
  simp [Select.relayChangeEvent, h]

/-- Witness for C2 at a concrete detail missing the value field. -/
theorem select_malformed_detail_panics_witness :
    (Select.relayChangeEvent (Json.obj [("index", Json.num 1)])).panicked
        = true ∧
    (Select.relayChangeEvent (Json.obj [("index", Json.num 1)])).callbackCalls
        = [] :=
  select_malformed_detail_panics _ rfl

/-- C4: on destruction, when a controller exists the hook performs
exactly the unlisten call followed by the destroy call, once each and
in that order; when no controller was ever constructed it performs no
action. -/
theorem select_destroy_releases_once (s : SelectState) :
    (s.inner.isSome = true →
      (Select.destroy s).2 =
        [ControllerAction.unlisten "MDCSelect:change",
         ControllerAction.destroyController]) ∧
    (s.inner = none → (Select.destroy s).2 = []) := by
  cases h : s.inner <;> simp [Select.destroy, h]

/-- Witness for C4 at a state owning a controller and at the empty
state. -/
theorem select_destroy_releases_once_witness :
    (Select.destroy ⟨some ()⟩).2 =
      [ControllerAction.unlisten "MDCSelect:change",
       ControllerAction.destroyController] ∧
    (Select.destroy ⟨none⟩).2 = [] :=
  ⟨(select_destroy_releases_once ⟨some ()⟩).1 rfl,
   (select_destroy_releases_once ⟨none⟩).2 rfl⟩

/-- C7: the content panel renders a single div carrying the fixed
drawer content class and the given identifier, with exactly the
supplied children; an omitted id defaults to the empty string. -/
theorem content_view_wrapper (p : Content.Props) :
    (Content.view p).tagOf = "div" ∧
    (Content.view p).classesOf = ["mdc-drawer__content"] ∧
    (Content.view p).attr "id" = some p.id ∧
    (Content.view p).childrenOf = p.children ∧
    (∀ c : List Html, ({ children := c } : Content.Props).id = "") :=
  ⟨rfl, rfl, rfl, rfl, fun _ => rfl⟩

/-- C8: the changed hook of the select field always requests a
re-render, and the update hook emits the received payload to the host
callback and never requests a re-render. -/
theorem select_rerender_policy :
    (∀ p : SelectProps, Select.changed p = true) ∧
    (∀ d : SelectChangeEventData,
      Select.update (SelectMsg.Changed d) = ([d], false)) :=
  ⟨fun _ => rfl, fun _ => rfl⟩

/-- Helper for C9: the step dispatch never reads absolute_position. -/
theorem stepActions_absolute_position (p : SelectProps)
    (q : Option (Int × Int)) (s : SelectState) (st : LifecycleStep) :
    Select.stepActions { p with absolute_position := q } s st =
      Select.stepActions p s st := by
  cases p; cases st <;> rfl

/-- Helper for C9: the lifecycle run never reads absolute_position. -/
theorem run_absolute_position (p : SelectProps) (q : Option (Int × Int))
    (steps : List LifecycleStep) :
    ∀ s, Select.run { p with absolute_position := q } s steps =
      Select.run p s steps := by
  induction steps with
  | nil => intro s; rfl
  | cons st rest ih =>
    intro s
    simp only [Select.run, stepActions_absolute_position, ih]

/-- C9: two property bags differing only in absolute_position produce
the same rendered markup, the same controller action trace over any
lifecycle, and the same rendered-hook behaviour: the field is accepted
but never read. The event relay and update hook take no properties at
all, so they cannot observe the field either. -/
theorem select_absolute_position_no_effect (p : SelectProps)
    (q : Option (Int × Int)) :
    Select.view { p with absolute_position := q } = Select.view p ∧
    (∀ s fr ex, Select.rendered { p with absolute_position := q } s fr ex =
      Select.rendered p s fr ex) ∧
    (∀ steps, Select.runTrace { p with absolute_position := q } steps =
      Select.runTrace p steps) := by
  refine ⟨?_, ?_, ?_⟩
  · cases p; rfl
  · intro s fr ex; cases p; rfl
  · intro steps; exact run_absolute_position p q steps _

/-! ### The controller construction discipline (C3) -/

/-- Helper: the action trace of a cons trace splits. -/
theorem traceActions_cons (pr : LifecycleStep × List ControllerAction)
    (tr : List (LifecycleStep × List ControllerAction)) :
    traceActions (pr :: tr) = pr.2 ++ traceActions tr := by
  simp [traceActions]

/-- Helper: newCount distributes over append. -/
theorem newCount_append (as bs : List ControllerAction) :
    newCount (as ++ bs) = newCount as + newCount bs := by
  simp [newCount, List.countP_append]

/-- Helper: the construction action list of the rendered hook contains
exactly one controller construction. -/
theorem newCount_construction (p : SelectProps) :
    newCount (ControllerAction.newController ::
      ((match p.selected_value with
        | some v => [ControllerAction.setValue v]
        | none => [])
        ++ [ControllerAction.listen "MDCSelect:change"])) = 1 := by
  cases p.selected_value <;>
    simp [newCount, List.countP_cons, List.countP_nil]

/-- Helper: over any step sequence, the number of controller
constructions is bounded by the number of rendered steps carrying the
first_render flag. -/
theorem run_newCount_le (p : SelectProps) (steps : List LifecycleStep) :
    ∀ s, newCount (traceActions (Select.run p s steps)) ≤
      renderedTrueCount steps := by
  induction steps with
  | nil => intro s; simp [Select.run, traceActions, newCount]
  | cons st rest ih =>
    intro s
    simp only [Select.run, traceActions_cons, newCount_append]
    cases st with
    | rendered fr ex =>
      cases fr with
      | false =>
        simpa [Select.stepActions, Select.rendered, renderedTrueCount,
          newCount] using ih _
      | true =>
        cases ex with
        | false =>
          simp only [Select.stepActions, Select.rendered, if_true, if_neg]
          simpa [Select.rendered, renderedTrueCount, newCount]
            using Nat.le_trans (ih _) (Nat.le_add_left _ 1)
        | true =>
          simp only [Select.stepActions, Select.rendered, if_true]
          rw [renderedTrueCount, newCount_construction]
          exact Nat.add_le_add_left (ih _) 1
    | update m =>
      simpa [Select.stepActions, renderedTrueCount, newCount] using ih _
    | destroy =>
      cases hs : s.inner <;>
        simpa [Select.stepActions, Select.destroy, hs, renderedTrueCount,
          newCount, List.countP_cons] using ih _

/-- Helper: any step of any run whose action list constructs a
controller is a rendered step with the first_render flag and a
resolved element; its action list starts with the construction, ends
with the listener registration, and applies a supplied pre-selected
value in between. -/
theorem run_new_origin (p : SelectProps) (steps : List LifecycleStep) :
    ∀ s, ∀ pr ∈ Select.run p s steps,
      ControllerAction.newController ∈ pr.2 →
      pr.1 = LifecycleStep.rendered true true ∧
      pr.2.head? = some ControllerAction.newController ∧
      pr.2.getLast? = some (ControllerAction.listen "MDCSelect:change") ∧
      (∀ v, p.selected_value = some v →
        ControllerAction.setValue v ∈ pr.2) := by
  induction steps with
  | nil => intro s pr hpr; simp [Select.run] at hpr
  | cons st rest ih =>
    intro s pr hpr hnew
    simp only [Select.run, List.mem_cons] at hpr
    rcases hpr with hpr | hpr
    · subst hpr
      cases st with
      | rendered fr ex =>
        cases fr with
        | false => simp [Select.stepActions, Select.rendered] at hnew
        | true =>
          cases ex with
          | false => simp [Select.stepActions, Select.rendered] at hnew
          | true =>
            refine ⟨rfl, ?_, ?_, ?_⟩
            · simp [Select.stepActions, Select.rendered]
            · cases hv : p.selected_value <;>
                simp [Select.stepActions, Select.rendered, hv]
            · intro v hv
              simp [Select.stepActions, Select.rendered, hv]
      | update m => simp [Select.stepActions] at hnew
      | destroy =>
        cases hs : s.inner <;>
          simp [Select.stepActions, Select.destroy, hs] at hnew
    · exact ih _ pr hpr hnew

/-- C3: over any lifecycle in which the framework flags at most one
rendered call as the first render, the constructor performs no
controller call, the controller is constructed at most once, and every
construction happens at the rendered step of the first render with a
resolved element, in the order: construct, apply a supplied
pre-selected value, register the change listener last. -/
theorem select_controller_constructed_once (p : SelectProps)
    (steps : List LifecycleStep)
    (hvalid : renderedTrueCount steps ≤ 1) :
    Select.create.2 = [] ∧
    newCount (traceActions (Select.runTrace p steps)) ≤ 1 ∧
    (∀ pr ∈ Select.runTrace p steps,
      ControllerAction.newController ∈ pr.2 →
      pr.1 = LifecycleStep.rendered true true ∧
      pr.2.head? = some ControllerAction.newController ∧
      pr.2.getLast? = some (ControllerAction.listen "MDCSelect:change") ∧
      (∀ v, p.selected_value = some v →
        ControllerAction.setValue v ∈ pr.2)) :=
  ⟨rfl,
   Nat.le_trans (run_newCount_le p steps _) hvalid,
   fun pr hpr hnew => run_new_origin p steps _ pr hpr hnew⟩

/-- Witness for C3 on a concrete mount: one first render, one change
message, one destruction. -/
theorem select_controller_constructed_once_witness :
    newCount (traceActions (Select.runTrace
      { children := [], select_width_class := "w", id := "sel",
        selected_value := some "a" }
      [LifecycleStep.rendered true true,
       LifecycleStep.update (SelectMsg.Changed ⟨"b", 1⟩),
       LifecycleStep.destroy])) ≤ 1 :=
  (select_controller_constructed_once _ _ (by decide)).2.1

/-! ### Menu surface class variants (C6) -/

/-- Counterexample for C6 as stated over every property input: a host
may pass the fixed-variant class itself as the width class, and the
menu surface then carries both the fixed and the full-width variant
classes at once. -/
theorem select_menu_surface_variant_cex :
    ({ children := [], fixed_position := false,
        select_width_class := "mdc-menu-surface--fixed",
        id := "s" } : SelectProps).fixed_position = false ∧
    "mdc-menu-surface--fixed" ∈
      ((Select.view
          { children := [], fixed_position := false,
            select_width_class := "mdc-menu-surface--fixed",
            id := "s" }).nthChild 1).classesOf ∧
    "mdc-menu-surface--fullwidth" ∈
      ((Select.view
          { children := [], fixed_position := false,
            select_width_class := "mdc-menu-surface--fixed",
            id := "s" }).nthChild 1).classesOf := by
  refine ⟨rfl, ?_, ?_⟩ <;>
    simp [Select.view, Html.nthChild, Html.childrenOf, Html.classesOf]

/-- C6 as amended: provided the width class is neither menu-surface
variant class, the menu-surface element carries the fixed variant
exactly when the fixed-position flag is set, the full-width variant
exactly when it is not, and never both at once. -/
theorem select_menu_surface_variant (p : SelectProps)
    (h1 : p.select_width_class ≠ "mdc-menu-surface--fixed")
    (h2 : p.select_width_class ≠ "mdc-menu-surface--fullwidth") :
    ("mdc-menu-surface--fixed" ∈ ((Select.view p).nthChild 1).classesOf ↔
      p.fixed_position = true) ∧
    ("mdc-menu-surface--fullwidth" ∈ ((Select.view p).nthChild 1).classesOf ↔
      p.fixed_position = false) ∧
    ¬("mdc-menu-surface--fixed" ∈ ((Select.view p).nthChild 1).classesOf ∧
      "mdc-menu-surface--fullwidth" ∈
        ((Select.view p).nthChild 1).classesOf) := by
  cases hf : p.fixed_position <;>
    simp [Select.view, Html.nthChild, Html.childrenOf, Html.classesOf,
      hf, Ne.symm h1, Ne.symm h2]

/-- Witness for C6 as amended, at a neutral width class with the flag
set. -/
theorem select_menu_surface_variant_witness :
    "mdc-menu-surface--fixed" ∈
      ((Select.view
          { children := [], fixed_position := true,
            select_width_class := "w", id := "s" }).nthChild 1).classesOf :=
  (select_menu_surface_variant _ (by decide) (by decide)).1.mpr rfl

/-! ### Floating label rendering (C5) -/

/-- Counterexample for C5 as stated over every property input: a host
may pass the no-label variant class itself as the width class, and the
root wrapper then carries the no-label variant even though a label was
supplied. -/
theorem select_label_rendering_cex :
    ({ children := [], select_width_class := "mdc-select--no-label",
        id := "s", label := some "x" } : SelectProps).label = some "x" ∧
    "mdc-select--no-label" ∈
      (Select.view
        { children := [], select_width_class := "mdc-select--no-label",
          id := "s", label := some "x" }).classesOf :=
  ⟨rfl, by simp [Select.view, Html.classesOf]⟩

/-- C5 as amended: provided the supplied children carry no
floating-label element and the width class is neither the no-label
variant class nor the floating-label class itself, then: with no
label, no floating-label element appears and the root wrapper carries
the no-label variant; with a label, exactly one floating-label element
appears, containing the label text, and the no-label variant is
absent. -/
theorem select_label_rendering (p : SelectProps)
    (hch : Html.floatingLabelsList p.children = [])
    (hw1 : p.select_width_class ≠ "mdc-select--no-label")
    (hw2 : p.select_width_class ≠ "mdc-floating-label") :
    (p.label = none →
      Html.floatingLabels (Select.view p) = [] ∧
      "mdc-select--no-label" ∈ (Select.view p).classesOf) ∧
    (∀ t, p.label = some t →
      Html.floatingLabels (Select.view p) =
        [Html.element "span" [("id", p.id ++ "-label")]
          ["mdc-floating-label"] [Html.text t]] ∧
      "mdc-select--no-label" ∉ (Select.view p).classesOf) := by
  constructor
  · intro hl
    constructor
    · cases hf : p.fixed_position <;>
        simp [Select.view, hl, hf, Html.floatingLabels,
          Html.floatingLabelsList, hch, Ne.symm hw2]
    · simp [Select.view, hl, Html.classesOf]
  · intro t hl
    constructor
    · cases hf : p.fixed_position <;>
        simp [Select.view, hl, hf, Html.floatingLabels,
          Html.floatingLabelsList, hch, Ne.symm hw2]
    · simp [Select.view, hl, Html.classesOf, Ne.symm hw1]

/-- Witness for C5 as amended, at a concrete labelled select. -/
theorem select_label_rendering_witness :
    Html.floatingLabels (Select.view
      { children := [], select_width_class := "w", id := "s",
        label := some "Pick" }) =
      [Html.element "span" [("id", "s" ++ "-label")]
        ["mdc-floating-label"] [Html.text "Pick"]] :=
  ((select_label_rendering _ (by simp [Html.floatingLabelsList])
      (by decide) (by decide)).2 "Pick" rfl).1

/-! ### The aria-labelledby attribute (C10) -/

/-- Helper: appending distinct-length suffixes to the same string
gives distinct strings. -/
theorem append_length_ne (s a b : String) (h : a.length ≠ b.length) :
    s ++ a ≠ s ++ b := by
  intro he
  have hlen := congrArg String.length he
  rw [String.length_append, String.length_append] at hlen
  omega

/-- Helper: appending a nonempty suffix changes a string. -/
theorem append_ne_self (s t : String) (h : t.length ≠ 0) :
    s ++ t ≠ s := by
  intro he
  have hlen := congrArg String.length he
  rw [String.length_append] at hlen
  omega

/-- Counterexample for C10 as stated over every property input: the
supplied children may themselves contain an element with the label id,
so with no label the rendered markup can still contain an element with
that id. -/
theorem select_aria_labelledby_dangling_cex :
    ({ children := [Html.element "span" [("id", "x-label")] [] []],
        select_width_class := "w", id := "x",
        label := none } : SelectProps).label = none ∧
    Html.idCount "x-label"
      (Select.view
        { children := [Html.element "span" [("id", "x-label")] [] []],
          select_width_class := "w", id := "x", label := none }) = 1 := by
  refine ⟨rfl, ?_⟩
  simp [Select.view, Html.idCount, Html.idCountList]

/-- C10 as amended: for every property input whose children contain no
element with the label id, the anchor carries an aria-labelledby
attribute referencing the label id and the selected-text id; and with
no label supplied, no element with the label id appears in the
rendered markup, so the reference dangles. -/
theorem select_aria_labelledby_dangling (p : SelectProps)
    (hch : Html.idCountList (p.id ++ "-label") p.children = 0) :
    ((Select.view p).nthChild 0).attr "aria-labelledby" =
      some (p.id ++ "-label" ++ " " ++ (p.id ++ "-selected-text")) ∧
    (p.label = none →
      Html.idCount (p.id ++ "-label") (Select.view p) = 0) := by
  have h1 : ¬(p.id ++ "-label" = p.id) :=
    append_ne_self p.id "-label" (by decide)
  have h2 : ¬(p.id ++ "-label" = p.id ++ "-selected-text") :=
    append_length_ne p.id "-label" "-selected-text" (by decide)
  constructor
  · simp [Select.view, Html.nthChild, Html.childrenOf, Html.attr,
      Html.attrsOf, List.lookup]
  · intro hl
    simp [Select.view, hl, Html.idCount, Html.idCountList, hch, h1, h2]

/-- Witness for C10 as amended, at a concrete unlabelled select with
no children. -/
theorem select_aria_labelledby_dangling_witness :
    ((Select.view
        { children := [], select_width_class := "w", id := "s",
          label := none }).nthChild 0).attr "aria-labelledby" =
      some ("s" ++ "-label" ++ " " ++ ("s" ++ "-selected-text")) :=
  (select_aria_labelledby_dangling _ (by simp [Html.idCountList])).1
end YewMdc
